import Mathlib

/-!
Verification of the load-generation and latency-percentile engine of
`src/examples/stress-test.py` (Keystone Gateway stress-test harness).

The Python source is shallowly embedded: latency values and durations are
exact rationals (`ℚ`), HTTP traffic is an explicit environment function from
issued requests to network events, and the thread-pool concurrency of
`run_concurrent_requests` is modelled as a step relation on a pool state.
-/

namespace StressTest

/-- Python `dict` arguments (`data`, `headers`) of `make_request`, modelled as
association lists. Only identity matters to the harness, never lookup. -/
abbrev Dict := List (String × String)

/-- The HTTP request actually handed to the `requests` library by
`make_request`: either `requests.get(url, timeout=10)` or
`requests.post(url, json=data, headers=headers or {}, timeout=10)`. -/
inductive IssuedRequest where
  | get (url : String) (timeout : Nat)
  | post (url : String) (body : Option Dict) (headers : Dict) (timeout : Nat)
deriving DecidableEq

/-- What the network does with one issued request: either a response arrives
(with a status code and an elapsed wall-clock time in milliseconds), or the
client raises an exception (transport failure or timeout). -/
inductive HttpEvent where
  | response (statusCode : Nat) (elapsedMillis : ℚ)
  | exn
deriving DecidableEq

/-- The request constructed by the `if method == "GET" / elif method == "POST"`
dispatch in `make_request` (stress-test.py lines 38-46). A method that is
neither `GET` nor `POST` issues no request: `response` is then unbound and the
`NameError` is swallowed by the `except` clause. -/
def issuedRequest (base endpoint method : String) (data headers : Option Dict) :
    Option IssuedRequest :=
  if method = "GET" then some (.get (base ++ endpoint) 10)
  else if method = "POST" then some (.post (base ++ endpoint) data (headers.getD []) 10)
  else none

/-- `StressTest.make_request` (stress-test.py lines 33-52): issue one request
against the environment `net` and return the `(success, latency_ms)` tuple.
A response yields `success = (200 <= status_code < 300)` with the measured
latency; any exception yields `(False, 0)`. -/
def make_request (base endpoint method : String) (data headers : Option Dict)
    (net : IssuedRequest → HttpEvent) : Bool × ℚ :=
  match issuedRequest base endpoint method data headers with
  | none => (false, 0)
  | some req =>
    match net req with
    | .response status latency => (decide (200 ≤ status ∧ status < 300), latency)
    | .exn => (false, 0)

/-- The mutable collection state of the `as_completed` loop
(stress-test.py lines 66-68): `latencies`, `successes`, `failures`. -/
structure Tally where
  latencies : List ℚ
  successes : Nat
  failures : Nat
deriving DecidableEq

/-- One iteration of the `as_completed` loop (lines 76-82): a successful
outcome appends its latency and bumps `successes`, a failed one bumps
`failures`. -/
def tallyStep (acc : Tally) (o : Bool × ℚ) : Tally :=
  if o.1 then
    { acc with latencies := acc.latencies ++ [o.2], successes := acc.successes + 1 }
  else
    { acc with failures := acc.failures + 1 }

/-- The whole collection loop over the delivered outcomes. -/
def tallyOutcomes (outcomes : List (Bool × ℚ)) : Tally :=
  outcomes.foldl tallyStep ⟨[], 0, 0⟩

/-- Python `min` over a nonempty list (`min(latencies)`, line 94);
`min` of an empty list raises and is never reached by the source. -/
def pyMin : List ℚ → ℚ
  | [] => 0
  | x :: xs => xs.foldl min x

/-- Python `max` over a nonempty list (`max(latencies)`, line 95). -/
def pyMax : List ℚ → ℚ
  | [] => 0
  | x :: xs => xs.foldl max x

/-- `statistics.mean` on a nonempty list (line 93): sum divided by length. -/
def pyMean (l : List ℚ) : ℚ := l.sum / l.length

/-- `int(len(latencies) * 0.95)` (line 97), in exact arithmetic: Python's
float product agrees with the exact value `⌊M * 95 / 100⌋` for every
realizable sample count. -/
def p95Index (M : Nat) : Nat := Nat.floor ((M : ℚ) * (95 / 100))

/-- `int(len(latencies) * 0.99)` (line 98). -/
def p99Index (M : Nat) : Nat := Nat.floor ((M : ℚ) * (99 / 100))

/-- `len(latencies) // 2` (line 96). -/
def p50Index (M : Nat) : Nat := M / 2

/-- The record returned by `run_concurrent_requests` (the `TestResult`
dataclass, stress-test.py lines 14-27). -/
structure TestResult where
  name : String
  requests : Nat
  successes : Nat
  failures : Nat
  avg_ms : ℚ
  min_ms : ℚ
  max_ms : ℚ
  p50_ms : ℚ
  p95_ms : ℚ
  p99_ms : ℚ
  requests_per_sec : ℚ
  duration_sec : ℚ
deriving DecidableEq

/-- The reduction of the collected tally into a `TestResult`
(stress-test.py lines 86-112): the `if latencies:` branch sorts the sample
list and reads statistics off it; the `else` branch reports all-zero latency
statistics and zero throughput. -/
def reduceTally (endpoint : String) (num_requests : Nat) (t : Tally) (duration : ℚ) :
    TestResult :=
  if t.latencies ≠ [] then
    let sorted := List.insertionSort (· ≤ ·) t.latencies
    { name := endpoint
      requests := num_requests
      successes := t.successes
      failures := t.failures
      avg_ms := pyMean sorted
      min_ms := pyMin sorted
      max_ms := pyMax sorted
      p50_ms := sorted.getD (p50Index sorted.length) 0
      p95_ms := sorted.getD (p95Index sorted.length) 0
      p99_ms := sorted.getD (p99Index sorted.length) 0
      requests_per_sec := (num_requests : ℚ) / duration
      duration_sec := duration }
  else
    { name := endpoint
      requests := num_requests
      successes := 0
      failures := t.failures
      avg_ms := 0, min_ms := 0, max_ms := 0
      p50_ms := 0, p95_ms := 0, p99_ms := 0
      requests_per_sec := 0
      duration_sec := duration }

/-- Collection loop plus reduction, applied to the delivered outcome list. -/
def reduceOutcomes (endpoint : String) (num_requests : Nat)
    (outcomes : List (Bool × ℚ)) (duration : ℚ) : TestResult :=
  reduceTally endpoint num_requests (tallyOutcomes outcomes) duration

/-- The N outcomes of the batch: `executor.submit(self.make_request, ...)`
once per request index (lines 70-74), with the environment `net` allowed to
answer each submitted call differently. -/
def batchOutcomes (base endpoint : String) (num_requests : Nat) (method : String)
    (data headers : Option Dict) (net : Nat → IssuedRequest → HttpEvent) :
    List (Bool × ℚ) :=
  (List.range num_requests).map
    (fun i => make_request base endpoint method data headers (net i))

/-- `StressTest.run_concurrent_requests` (lines 54-115) as a function of the
network environment and the measured batch duration. The `concurrency`
argument shapes scheduling only (see the pool model below); the collected
statistics are a pure function of the delivered outcomes. -/
def run_concurrent_requests (base endpoint : String) (num_requests concurrency : Nat)
    (method : String) (data headers : Option Dict)
    (net : Nat → IssuedRequest → HttpEvent) (duration : ℚ) : TestResult :=
  reduceOutcomes endpoint num_requests
    (batchOutcomes base endpoint num_requests method data headers net) duration

/-- The ascending-sorted list of successful latencies of a batch
(`latencies.sort()`, line 87). -/
def sortedSamples (outcomes : List (Bool × ℚ)) : List ℚ :=
  List.insertionSort (· ≤ ·) (tallyOutcomes outcomes).latencies

/-- `statistics.mean` as the source calls it in `main`: raises
`StatisticsError` on an empty list, modelled as `none`. -/
def pyStatisticsMean (l : List ℚ) : Option ℚ :=
  if l = [] then none else some (l.sum / l.length)

/-- The aggregate summary printed by `main` (stress-test.py lines 232-244). -/
structure Summary where
  total_requests : Nat
  total_successes : Nat
  total_failures : Nat
  success_pct : ℚ
  failure_pct : ℚ
  avg_throughput : ℚ
  avg_latency : ℚ
deriving DecidableEq

/-- The summary computation of `main` (lines 232-244): totals by summation,
`avg_throughput` and `avg_latency` as `statistics.mean` over the scenarios
with positive throughput (resp. positive average latency), and the
success/failure percentages as division by `total_requests`. `none` models
the run raising: `statistics.mean` on an empty list (line 237 or 238) or
division by zero in the percentage (lines 241-242). -/
def summarize (all_results : List TestResult) : Option Summary :=
  let total_requests := (all_results.map (fun r => r.requests)).sum
  let total_successes := (all_results.map (fun r => r.successes)).sum
  let total_failures := (all_results.map (fun r => r.failures)).sum
  match pyStatisticsMean
          ((all_results.filter (fun r => r.requests_per_sec > 0)).map
            (fun r => r.requests_per_sec)),
        pyStatisticsMean
          ((all_results.filter (fun r => r.avg_ms > 0)).map (fun r => r.avg_ms)) with
  | some avg_throughput, some avg_latency =>
    if total_requests = 0 then none
    else some
      { total_requests := total_requests
        total_successes := total_successes
        total_failures := total_failures
        success_pct := (total_successes : ℚ) / (total_requests : ℚ) * 100
        failure_pct := (total_failures : ℚ) / (total_requests : ℚ) * 100
        avg_throughput := avg_throughput
        avg_latency := avg_latency }
  | _, _ => none

/-- State of the `ThreadPoolExecutor(max_workers=concurrency)` pool during one
batch (lines 70-83): requests not yet started, calls currently in flight, and
collected outcomes. -/
structure PoolState where
  pending : Nat
  inflight : Nat
  completed : Nat
deriving DecidableEq

/-- One scheduling event of the pool with worker bound `C`: a pending call may
start only while fewer than `C` calls are in flight (the pool has at most `C`
worker threads, each running one `make_request` at a time); an in-flight call
may finish and have its outcome collected. -/
inductive PoolStep (C : Nat) : PoolState → PoolState → Prop where
  | start (s : PoolState) (hp : 0 < s.pending) (hc : s.inflight < C) :
      PoolStep C s ⟨s.pending - 1, s.inflight + 1, s.completed⟩
  | finish (s : PoolState) (hf : 0 < s.inflight) :
      PoolStep C s ⟨s.pending, s.inflight - 1, s.completed + 1⟩

/-- A fresh batch of `N` requests: all pending, none started. -/
def initPool (N : Nat) : PoolState := ⟨N, 0, 0⟩

/-- The pool states reachable during a batch of `N` requests at concurrency
`C`, from the moment scheduling begins. -/
def PoolReachable (C N : Nat) (s : PoolState) : Prop :=
  Relation.ReflTransGen (PoolStep C) (initPool N) s

/-- Running the collection loop from an arbitrary accumulator: the latency
list extends by the successful latencies in delivery order, the counters by
the number of successes and failures. -/
lemma foldl_tallyStep (outcomes : List (Bool × ℚ)) (acc : Tally) :
    outcomes.foldl tallyStep acc =
      ⟨acc.latencies ++ (outcomes.filter (fun o => o.1)).map (fun o => o.2),
       acc.successes + (outcomes.filter (fun o => o.1)).length,
       acc.failures + (outcomes.filter (fun o => !o.1)).length⟩ := by
  induction outcomes generalizing acc with
  | nil => simp
  | cons a l ih =>
    cases ha : a.1 <;>
      simp [tallyStep, ha, ih, List.append_assoc, Nat.add_assoc, Nat.add_comm 1]

/-- The collection loop, characterized: latencies are the successful
latencies in order, the counters count the successes and failures. -/
lemma tallyOutcomes_eq (outcomes : List (Bool × ℚ)) :
    tallyOutcomes outcomes =
      ⟨(outcomes.filter (fun o => o.1)).map (fun o => o.2),
       (outcomes.filter (fun o => o.1)).length,
       (outcomes.filter (fun o => !o.1)).length⟩ := by
  simpa [tallyOutcomes] using foldl_tallyStep outcomes ⟨[], 0, 0⟩

/-- Every outcome lands in exactly one of the two counters. -/
lemma length_filter_add_length_filter_not (outcomes : List (Bool × ℚ)) :
    (outcomes.filter (fun o => o.1)).length +
      (outcomes.filter (fun o => !o.1)).length = outcomes.length := by
  induction outcomes with
  | nil => rfl
  | cons a l ih => cases ha : a.1 <;> simp [ha, ← ih] <;> omega

/-- The float index `int(M * 0.95)`, exactly. -/
lemma p95Index_eq (M : Nat) : p95Index M = M * 95 / 100 := by
  unfold p95Index
  rw [show (M : ℚ) * (95 / 100) = ((M * 95 : ℕ) : ℚ) / ((100 : ℕ) : ℚ) by
    push_cast; ring]
  rw [Nat.floor_div_nat, Nat.floor_natCast]

/-- The float index `int(M * 0.99)`, exactly. -/
lemma p99Index_eq (M : Nat) : p99Index M = M * 99 / 100 := by
  unfold p99Index
  rw [show (M : ℚ) * (99 / 100) = ((M * 99 : ℕ) : ℚ) / ((100 : ℕ) : ℚ) by
    push_cast; ring]
  rw [Nat.floor_div_nat, Nat.floor_natCast]

/-- Sorting does not change the number of samples. -/
lemma length_sortedSamples (outcomes : List (Bool × ℚ)) :
    (sortedSamples outcomes).length = (tallyOutcomes outcomes).latencies.length :=
  (List.perm_insertionSort _ _).length_eq

/-- Ten successful outcomes whose latencies are the sorted list 1..10. -/
def ex10 : List (Bool × ℚ) :=
  [(true, 1), (true, 2), (true, 3), (true, 4), (true, 5),
   (true, 6), (true, 7), (true, 8), (true, 9), (true, 10)]

/-- C1: for every batch with at least one successful outcome, the reported
p50, p95 and p99 each equal the element at 0-based index `⌊M * p / 100⌋` of
the ascending-sorted successful-latency sequence of length M, clamped to
`M - 1` (the clamp written as `min`); the sequence is genuinely sorted
ascending and is a permutation of the collected samples. -/
theorem percentile_nearest_rank (e : String) (N : Nat) (outs : List (Bool × ℚ))
    (d : ℚ) (h : (tallyOutcomes outs).latencies ≠ []) :
    List.Sorted (· ≤ ·) (sortedSamples outs) ∧
    (sortedSamples outs).Perm (tallyOutcomes outs).latencies ∧
    (reduceOutcomes e N outs d).p50_ms =
      (sortedSamples outs).getD
        (min ((sortedSamples outs).length * 50 / 100) ((sortedSamples outs).length - 1)) 0 ∧
    (reduceOutcomes e N outs d).p95_ms =
      (sortedSamples outs).getD
        (min ((sortedSamples outs).length * 95 / 100) ((sortedSamples outs).length - 1)) 0 ∧
    (reduceOutcomes e N outs d).p99_ms =
      (sortedSamples outs).getD
        (min ((sortedSamples outs).length * 99 / 100) ((sortedSamples outs).length - 1)) 0 := by
  have hM : 0 < (sortedSamples outs).length := by
    rw [length_sortedSamples]
    exact List.length_pos.mpr h
  refine ⟨List.sorted_insertionSort _ _, List.perm_insertionSort _ _, ?_, ?_, ?_⟩ <;>
    simp only [reduceOutcomes, reduceTally, if_pos h, sortedSamples] <;>
    congr 1
  · rw [p50Index]
    omega
  · rw [p95Index_eq]
    omega
  · rw [p99Index_eq]
    omega

/-- C1 witness: on the sorted latencies 1..10, p50 is the element at index 5,
namely 6, and p95 and p99 are the element at index 9, namely 10. -/
theorem percentile_nearest_rank_witness :
    (tallyOutcomes ex10).latencies ≠ [] ∧
    (reduceOutcomes "/health" 10 ex10 1).p50_ms = 6 ∧
    (reduceOutcomes "/health" 10 ex10 1).p95_ms = 10 ∧
    (reduceOutcomes "/health" 10 ex10 1).p99_ms = 10 := by
  have h : (tallyOutcomes ex10).latencies ≠ [] := by decide
  have hc := percentile_nearest_rank "/health" 10 ex10 1 h
  refine ⟨h, ?_, ?_, ?_⟩
  · rw [hc.2.2.1]; decide
  · rw [hc.2.2.2.1]; decide
  · rw [hc.2.2.2.2]; decide

/-- C2 (amended): the reported throughput equals N divided by the batch
duration whenever at least one request succeeded; in a batch where every call
fails the code hardcodes a throughput of 0 instead of N / duration. -/
theorem throughput_formula (e : String) (N : Nat) (outs : List (Bool × ℚ)) (d : ℚ) :
    ((∃ o ∈ outs, o.1 = true) →
      (reduceOutcomes e N outs d).requests_per_sec = (N : ℚ) / d) ∧
    ((∀ o ∈ outs, o.1 = false) →
      (reduceOutcomes e N outs d).requests_per_sec = 0) := by
  constructor
  · intro hex
    have hne : (tallyOutcomes outs).latencies ≠ [] := by
      obtain ⟨o, ho, hs⟩ := hex
      rw [tallyOutcomes_eq]
      simp only [ne_eq, List.map_eq_nil_iff, List.filter_eq_nil_iff]
      push_neg
      exact ⟨o, ho, by simp [hs]⟩
    simp [reduceOutcomes, reduceTally, if_pos hne]
  · intro hall
    have hnil : (tallyOutcomes outs).latencies = [] := by
      rw [tallyOutcomes_eq]
      simp only [List.map_eq_nil_iff, List.filter_eq_nil_iff]
      intro o ho
      simp [hall o ho]
    simp [reduceOutcomes, reduceTally, hnil]

/-- C2 witness: a two-request batch with one success reports throughput
2 / duration, and a batch of two failures reports throughput 0. -/
theorem throughput_formula_witness :
    (∃ o ∈ [((true : Bool), (3 : ℚ)), (false, 0)], o.1 = true) ∧
    (reduceOutcomes "/h" 2 [((true : Bool), (3 : ℚ)), (false, 0)] 4).requests_per_sec
      = (2 : ℚ) / 4 ∧
    (∀ o ∈ [((false : Bool), (5 : ℚ)), (false, 7)], o.1 = false) ∧
    (reduceOutcomes "/h" 2 [((false : Bool), (5 : ℚ)), (false, 7)] 4).requests_per_sec
      = 0 := by
  have h1 : ∃ o ∈ [((true : Bool), (3 : ℚ)), (false, 0)], o.1 = true := by decide
  have h2 : ∀ o ∈ [((false : Bool), (5 : ℚ)), (false, 7)], o.1 = false := by decide
  exact ⟨h1, (throughput_formula "/h" 2 _ 4).1 h1,
         h2, (throughput_formula "/h" 2 _ 4).2 h2⟩

/-- C2 counterexample: in a batch of 4 requests where every call fails, over
a duration of 2 seconds, the code reports throughput 0, not N / duration = 2. -/
theorem throughput_all_fail_cex :
    (reduceOutcomes "/health" 4
        [((false : Bool), (5 : ℚ)), (false, 7), (false, 1), (false, 2)] 2).requests_per_sec
      = 0 ∧
    (0 : ℚ) ≠ (4 : ℚ) / 2 := by
  constructor
  · decide
  · norm_num

/-- C3: a batch in which zero requests succeed still produces a well-formed
TestResult (the reduction is total), reporting
min = avg = p50 = p95 = p99 = max = 0 and a success count of 0. -/
theorem zero_success_stats (e : String) (N : Nat) (outs : List (Bool × ℚ)) (d : ℚ)
    (h : ∀ o ∈ outs, o.1 = false) :
    (reduceOutcomes e N outs d).successes = 0 ∧
    (reduceOutcomes e N outs d).min_ms = 0 ∧
    (reduceOutcomes e N outs d).avg_ms = 0 ∧
    (reduceOutcomes e N outs d).p50_ms = 0 ∧
    (reduceOutcomes e N outs d).p95_ms = 0 ∧
    (reduceOutcomes e N outs d).p99_ms = 0 ∧
    (reduceOutcomes e N outs d).max_ms = 0 := by
  have hnil : (tallyOutcomes outs).latencies = [] := by
    rw [tallyOutcomes_eq]
    simp only [List.map_eq_nil_iff, List.filter_eq_nil_iff]
    intro o ho
    simp [h o ho]
  simp [reduceOutcomes, reduceTally, hnil]

/-- C3 witness: a concrete all-failure batch reports every latency statistic
as zero. -/
theorem zero_success_stats_witness :
    (∀ o ∈ [((false : Bool), (9 : ℚ)), (false, 4), (false, 6)], o.1 = false) ∧
    ((reduceOutcomes "/api" 3 [((false : Bool), (9 : ℚ)), (false, 4), (false, 6)] 5).successes = 0 ∧
     (reduceOutcomes "/api" 3 [((false : Bool), (9 : ℚ)), (false, 4), (false, 6)] 5).min_ms = 0 ∧
     (reduceOutcomes "/api" 3 [((false : Bool), (9 : ℚ)), (false, 4), (false, 6)] 5).avg_ms = 0 ∧
     (reduceOutcomes "/api" 3 [((false : Bool), (9 : ℚ)), (false, 4), (false, 6)] 5).p50_ms = 0 ∧
     (reduceOutcomes "/api" 3 [((false : Bool), (9 : ℚ)), (false, 4), (false, 6)] 5).p95_ms = 0 ∧
     (reduceOutcomes "/api" 3 [((false : Bool), (9 : ℚ)), (false, 4), (false, 6)] 5).p99_ms = 0 ∧
     (reduceOutcomes "/api" 3 [((false : Bool), (9 : ℚ)), (false, 4), (false, 6)] 5).max_ms = 0) := by
  have h : ∀ o ∈ [((false : Bool), (9 : ℚ)), (false, 4), (false, 6)], o.1 = false := by
    decide
  exact ⟨h, zero_success_stats "/api" 3 _ 5 h⟩

/-- Counting failures only looks at the success flags. -/
lemma length_filter_not_eq_of_flags (o : List (Bool × ℚ)) :
    (o.filter (fun x => !x.1)).length =
      ((o.map (fun x => x.1)).filter (fun b => !b)).length := by
  induction o with
  | nil => rfl
  | cons a l ih => cases ha : a.1 <;> simp [ha, ih]

/-- C4: the latency sample list fed to the statistics is exactly the latencies
of the successful outcomes, and the whole reported result is unchanged when
the latency values of failed outcomes are replaced arbitrarily: two batches
with the same success flags and the same successful latencies reduce to the
same TestResult. -/
theorem failures_excluded_from_stats (e : String) (N : Nat) (d : ℚ)
    (o₁ o₂ : List (Bool × ℚ))
    (hflags : o₁.map (fun o => o.1) = o₂.map (fun o => o.1))
    (hsucc : (o₁.filter (fun o => o.1)).map (fun o => o.2) =
             (o₂.filter (fun o => o.1)).map (fun o => o.2)) :
    (tallyOutcomes o₁).latencies = (o₁.filter (fun o => o.1)).map (fun o => o.2) ∧
    reduceOutcomes e N o₁ d = reduceOutcomes e N o₂ d := by
  have hlen : (o₁.filter (fun o => o.1)).length = (o₂.filter (fun o => o.1)).length := by
    have := congrArg List.length hsucc
    simpa using this
  have htally : tallyOutcomes o₁ = tallyOutcomes o₂ := by
    rw [tallyOutcomes_eq, tallyOutcomes_eq]
    refine congrArg₂ (fun a b => Tally.mk a b _) hsucc hlen |>.trans ?_
    congr 1
    rw [length_filter_not_eq_of_flags, length_filter_not_eq_of_flags, hflags]
  exact ⟨(congrArg Tally.latencies (tallyOutcomes_eq o₁)),
         by rw [reduceOutcomes, reduceOutcomes, htally]⟩

/-- C4 witness: changing a failed call's recorded latency from 99 to 0 leaves
the reported result identical. -/
theorem failures_excluded_from_stats_witness :
    ([((true : Bool), (2 : ℚ)), (false, 99)].map (fun o => o.1) =
      [((true : Bool), (2 : ℚ)), (false, 0)].map (fun o => o.1)) ∧
    (([((true : Bool), (2 : ℚ)), (false, 99)].filter (fun o => o.1)).map (fun o => o.2) =
      ([((true : Bool), (2 : ℚ)), (false, 0)].filter (fun o => o.1)).map (fun o => o.2)) ∧
    (tallyOutcomes [((true : Bool), (2 : ℚ)), (false, 99)]).latencies =
      ([((true : Bool), (2 : ℚ)), (false, 99)].filter (fun o => o.1)).map (fun o => o.2) ∧
    reduceOutcomes "/h" 2 [((true : Bool), (2 : ℚ)), (false, 99)] 1 =
      reduceOutcomes "/h" 2 [((true : Bool), (2 : ℚ)), (false, 0)] 1 := by
  have h1 : [((true : Bool), (2 : ℚ)), (false, 99)].map (fun o => o.1) =
      [((true : Bool), (2 : ℚ)), (false, 0)].map (fun o => o.1) := by decide
  have h2 : ([((true : Bool), (2 : ℚ)), (false, 99)].filter (fun o => o.1)).map (fun o => o.2) =
      ([((true : Bool), (2 : ℚ)), (false, 0)].filter (fun o => o.1)).map (fun o => o.2) := by
    decide
  have hc := failures_excluded_from_stats "/h" 2 1 _ _ h1 h2
  exact ⟨h1, h2, hc.1, hc.2⟩

/-- Evaluation of the executor once the dispatch has issued a request. -/
lemma make_request_eq_some (base e method : String) (data headers : Option Dict)
    (net : IssuedRequest → HttpEvent) (req : IssuedRequest)
    (hreq : issuedRequest base e method data headers = some req) :
    make_request base e method data headers net =
      match net req with
      | .response status latency => (decide (200 ≤ status ∧ status < 300), latency)
      | .exn => (false, 0) := by
  unfold make_request
  rw [hreq]

/-- Evaluation of the executor when the dispatch issues no request. -/
lemma make_request_eq_none (base e method : String) (data headers : Option Dict)
    (net : IssuedRequest → HttpEvent)
    (hreq : issuedRequest base e method data headers = none) :
    make_request base e method data headers net = (false, 0) := by
  unfold make_request
  rw [hreq]

/-- C5: the executor is a total function into outcome tuples (no exception
ever reaches the caller); its success flag is true exactly when a request was
issued, a response came back, and the status code lies in [200, 300); a raised
exception — and likewise an unsupported method — yields `(false, 0)`. -/
theorem executor_success_classification (base e method : String)
    (data headers : Option Dict) (net : IssuedRequest → HttpEvent) :
    ((make_request base e method data headers net).1 = true ↔
      ∃ req status lat, issuedRequest base e method data headers = some req ∧
        net req = .response status lat ∧ 200 ≤ status ∧ status < 300) ∧
    (∀ req, issuedRequest base e method data headers = some req →
      net req = .exn → make_request base e method data headers net = (false, 0)) ∧
    (issuedRequest base e method data headers = none →
      make_request base e method data headers net = (false, 0)) := by
  refine ⟨⟨?_, ?_⟩, ?_, ?_⟩
  · intro hs
    cases hreq : issuedRequest base e method data headers with
    | none => rw [make_request_eq_none base e method data headers net hreq] at hs; simp at hs
    | some req =>
      rw [make_request_eq_some base e method data headers net req hreq] at hs
      cases hnet : net req with
      | response s t =>
        rw [hnet] at hs
        simp only [decide_eq_true_eq] at hs
        exact ⟨req, s, t, rfl, hnet, hs.1, hs.2⟩
      | exn => rw [hnet] at hs; simp at hs
  · rintro ⟨req, s, t, hreq, hnet, hlo, hhi⟩
    rw [make_request_eq_some base e method data headers net req hreq, hnet]
    simp [hlo, hhi]
  · intro req hreq hnet
    rw [make_request_eq_some base e method data headers net req hreq, hnet]
  · intro hreq
    exact make_request_eq_none base e method data headers net hreq

/-- C5 witness: a 204 response yields success for a GET call, and a raised
exception on the same call yields `(false, 0)`. -/
theorem executor_success_classification_witness :
    (make_request "http://localhost:8080" "/health" "GET" none none
        (fun _ => .response 204 3)).1 = true ∧
    make_request "http://localhost:8080" "/health" "GET" none none
        (fun _ => .exn) = (false, 0) := by
  constructor
  · exact (executor_success_classification "http://localhost:8080" "/health" "GET"
        none none (fun _ => .response 204 3)).1.mpr
      ⟨.get ("http://localhost:8080" ++ "/health") 10, 204, 3, by decide, rfl,
       by decide, by decide⟩
  · exact (executor_success_classification "http://localhost:8080" "/health" "GET"
        none none (fun _ => .exn)).2.1
      (.get ("http://localhost:8080" ++ "/health") 10) (by decide) rfl

/-- C6: for any N and any concurrency C ≥ 1, a batch whose every call is
answered with a 2xx response yields successes = N, failures = 0, and exactly
N outcomes collected. -/
theorem all_2xx_batch_counts (base e : String) (N C : Nat) (method : String)
    (data headers : Option Dict) (net : Nat → IssuedRequest → HttpEvent) (d : ℚ)
    (hC : 1 ≤ C)
    (hmethod : method = "GET" ∨ method = "POST")
    (h2xx : ∀ i req, ∃ status lat, net i req = .response status lat ∧
      200 ≤ status ∧ status < 300) :
    (run_concurrent_requests base e N C method data headers net d).successes = N ∧
    (run_concurrent_requests base e N C method data headers net d).failures = 0 ∧
    (batchOutcomes base e N method data headers net).length = N := by
  have hlen : (batchOutcomes base e N method data headers net).length = N := by
    simp [batchOutcomes]
  have hall : ∀ o ∈ batchOutcomes base e N method data headers net, o.1 = true := by
    intro o ho
    simp only [batchOutcomes, List.mem_map, List.mem_range] at ho
    obtain ⟨i, _, rfl⟩ := ho
    have hsome : ∃ req, issuedRequest base e method data headers = some req := by
      rcases hmethod with hm | hm <;> subst hm
      · exact ⟨.get (base ++ e) 10, by simp [issuedRequest]⟩
      · exact ⟨.post (base ++ e) data (headers.getD []) 10, by simp [issuedRequest]⟩
    obtain ⟨req, hreq⟩ := hsome
    obtain ⟨s, t, hnet, hlo, hhi⟩ := h2xx i req
    rw [make_request_eq_some base e method data headers (net i) req hreq, hnet]
    simp [hlo, hhi]
  have hfilter : (batchOutcomes base e N method data headers net).filter
      (fun o => o.1) = batchOutcomes base e N method data headers net :=
    List.filter_eq_self.mpr (fun a ha => by simp [hall a ha])
  have hnotfilter : (batchOutcomes base e N method data headers net).filter
      (fun o => !o.1) = [] :=
    List.filter_eq_nil_iff.mpr (fun a ha => by simp [hall a ha])
  have htally : tallyOutcomes (batchOutcomes base e N method data headers net) =
      ⟨(batchOutcomes base e N method data headers net).map (fun o => o.2), N, 0⟩ := by
    rw [tallyOutcomes_eq, hfilter, hnotfilter, hlen]
    rfl
  refine ⟨?_, ?_, hlen⟩ <;>
    · rw [run_concurrent_requests, reduceOutcomes, htally, reduceTally]
      rcases Nat.eq_zero_or_pos N with h0 | hpos
      · subst h0
        have hb : batchOutcomes base e 0 method data headers net = [] := by
          simp [batchOutcomes]
        simp [hb]
      · have hne :
            (batchOutcomes base e N method data headers net).map (fun o => o.2) ≠ [] := by
          simp only [ne_eq, List.map_eq_nil_iff]
          intro hb
          rw [hb] at hlen
          simp at hlen
          omega
        simp [hne]

/-- C6 witness: three GET requests at concurrency 1 against a server that
always answers 200 give successes = 3, failures = 0, three outcomes. -/
theorem all_2xx_batch_counts_witness :
    (run_concurrent_requests "u" "/h" 3 1 "GET" none none
        (fun _ _ => .response 200 1) 1).successes = 3 ∧
    (run_concurrent_requests "u" "/h" 3 1 "GET" none none
        (fun _ _ => .response 200 1) 1).failures = 0 ∧
    (batchOutcomes "u" "/h" 3 "GET" none none (fun _ _ => .response 200 1)).length = 3 :=
  all_2xx_batch_counts "u" "/h" 3 1 "GET" none none (fun _ _ => .response 200 1) 1
    (by decide) (Or.inl rfl)
    (fun i req => ⟨200, 1, rfl, by decide, by decide⟩)

/-- C9: in every completed batch, successes + failures = N (each of the N
outcomes lands in exactly one counter), and the number of latency samples
collected for the statistics equals the success count. -/
theorem counters_partition_requests (base e : String) (N C : Nat) (method : String)
    (data headers : Option Dict) (net : Nat → IssuedRequest → HttpEvent) (d : ℚ) :
    (run_concurrent_requests base e N C method data headers net d).successes +
      (run_concurrent_requests base e N C method data headers net d).failures = N ∧
    (tallyOutcomes (batchOutcomes base e N method data headers net)).latencies.length =
      (run_concurrent_requests base e N C method data headers net d).successes := by
  have hlen : (batchOutcomes base e N method data headers net).length = N := by
    simp [batchOutcomes]
  have hsplit := length_filter_add_length_filter_not
    (batchOutcomes base e N method data headers net)
  rw [hlen] at hsplit
  rw [run_concurrent_requests, reduceOutcomes, tallyOutcomes_eq, reduceTally]
  by_cases hnil :
      ((batchOutcomes base e N method data headers net).filter (fun o => o.1)).map
        (fun o => o.2) = []
  · have hzero : ((batchOutcomes base e N method data headers net).filter
        (fun o => o.1)).length = 0 := by
      have := congrArg List.length hnil
      simpa using this
    simp only [hnil, ite_not]
    simp [hzero, hzero ▸ hsplit]
  · simp only [hnil, ite_not]
    simp [hnil, hsplit]

/-- C10: with method GET, the issued request — and hence the whole outcome
against any fixed network behavior — does not depend on the `data` and
`headers` arguments: they are silently dropped by the GET branch. -/
theorem get_ignores_data_headers (base e : String) (d₁ d₂ h₁ h₂ : Option Dict)
    (net : IssuedRequest → HttpEvent) :
    issuedRequest base e "GET" d₁ h₁ = issuedRequest base e "GET" d₂ h₂ ∧
    make_request base e "GET" d₁ h₁ net = make_request base e "GET" d₂ h₂ net := by
  constructor
  · simp [issuedRequest]
  · unfold make_request issuedRequest
    simp

/-- C7 (amended): the aggregate summary of `main` completes without raising
exactly when some scenario has positive throughput, some scenario has
positive average latency, and the total request count is nonzero; with an
empty scenario list, a zero total, or all-zero throughput or latency columns
it raises (`statistics.mean` of an empty list, or division by zero in the
percentages) instead of reporting 0. -/
theorem aggregate_summary_requires_nonzero (results : List TestResult) :
    (summarize results).isSome ↔
      (results.filter (fun r => r.requests_per_sec > 0) ≠ [] ∧
       results.filter (fun r => r.avg_ms > 0) ≠ [] ∧
       (results.map (fun r => r.requests)).sum ≠ 0) := by
  by_cases h1 : results.filter (fun r => r.requests_per_sec > 0) = [] <;>
  by_cases h2 : results.filter (fun r => r.avg_ms > 0) = [] <;>
  by_cases h3 : (results.map (fun r => r.requests)).sum = 0 <;>
    simp [summarize, pyStatisticsMean, h1, h2, h3]

/-- C7 counterexample: over zero scenarios the aggregate computation raises
(`statistics.mean` of an empty list) instead of reporting all-zero totals. -/
theorem aggregate_empty_raises : summarize [] = none := by decide

/-- C8: at every instant of a batch — every pool state reachable from the
start of scheduling — the number of Executor calls concurrently in flight
never exceeds the concurrency limit C. -/
theorem pool_inflight_bounded (C N : Nat) (s : PoolState)
    (h : PoolReachable C N s) : s.inflight ≤ C := by
  induction h with
  | refl => exact Nat.zero_le C
  | tail hab hbc ih =>
    cases hbc with
    | start hp hc => exact hc
    | finish hf => exact le_trans (Nat.sub_le _ _) ih

/-- C8 witness: in a batch of N = 1000 at C = 50, the state after the first
call starts is reachable and satisfies the in-flight bound. -/
theorem pool_inflight_bounded_witness :
    PoolReachable 50 1000 ⟨999, 1, 0⟩ ∧ (PoolState.mk 999 1 0).inflight ≤ 50 := by
  have hstep : PoolStep 50 (initPool 1000) ⟨999, 1, 0⟩ :=
    PoolStep.start (initPool 1000) (by decide) (by decide)
  have hreach : PoolReachable 50 1000 ⟨999, 1, 0⟩ := Relation.ReflTransGen.single hstep
  exact ⟨hreach, pool_inflight_bounded 50 1000 _ hreach⟩

end StressTest
